import Mathlib

/-!
Verification of the EVVOS Raspberry Pi provisioning server
(`src/RaspberryPiZero2W/provision_server.py`) against its natural-language
specification.

The Python handler is embedded shallowly: every observable effect of one
provisioning attempt (shell commands issued, sleeps, the three file writes)
is recorded as an `Event` in execution order, and the handler itself is a
pure function from an `Env` — the outcomes of the attempt's external
interactions (JSON parsing, the connectivity probe, the registration call,
and whether each bare file `open(...)` write succeeds or raises) — to the
HTTP response together with the event trace.  A response being "returned"
means every event of the trace has already happened, matching the
sequential Python code.
-/

namespace EVVOS

/-- Outcome of one shell command, as seen by `run` in provision_server.py:
the command may produce output, exceed its timeout, or raise. -/
inductive CmdBehavior
  | succeeds (stdout : String)
  | timesOut
  | fails (err : String)
deriving Repr, DecidableEq

/-- The `run` helper of provision_server.py: wraps `subprocess.run`,
returning the captured stdout, and swallowing both `TimeoutExpired` and any
other exception by returning `None` (modelled as `none`).  It never raises. -/
def run (b : CmdBehavior) : Option String :=
  match b with
  | .succeeds out => some out
  | .timesOut => none
  | .fails _ => none

/-- One observable effect of the provisioning handler, in execution order:
a shell command handed to `run`, a `time.sleep`, one connectivity probe of
the wifi loop (itself a `run` of `ifconfig wlan0 || ip addr show wlan0`,
abstracted to its attempt index), the write of the temporary
wpa_supplicant config, the creation of the `AP_RESTORED_FILE` marker, and
the creation of the `PROVISIONED_FILE` marker. -/
inductive Event
  | runCmd (cmd : String)
  | sleep (secs : Nat)
  | probe (attempt : Nat)
  | tmpWrite
  | apMarkerWrite
  | provisionedWrite
deriving Repr, DecidableEq

def cmdStartHostapd : String := "systemctl start hostapd"

def cmdStartDnsmasq : String := "systemctl start dnsmasq"

def cmdStopHostapd : String := "systemctl stop hostapd"

def cmdStopDnsmasq : String := "systemctl stop dnsmasq"

def cmdStopProvisionServer : String := "systemctl stop provision-server"

def cmdCpConfig : String := "cp /tmp/wpa_supplicant_tmp.conf /etc/wpa_supplicant/wpa_supplicant.conf"

def cmdWpaReconfigure : String := "wpa_cli -i wlan0 reconfigure"

/-- `restore_ap_mode` from provision_server.py: starts hostapd and dnsmasq
through `run` with `check=False` (both results are ignored, so their
outcomes cannot influence anything), then creates `AP_RESTORED_FILE` by a
bare `open(AP_RESTORED_FILE, 'w').close()`.  That final write is *not*
guarded: if it fails, the exception propagates to the caller.  The result
is the list of performed events together with a flag recording whether the
function raised. -/
def restore_ap_mode (hostapdStart dnsmasqStart : CmdBehavior)
    (markerWriteOk : Bool) : List Event × Bool :=
  let _r1 := run hostapdStart
  let _r2 := run dnsmasqStart
  if markerWriteOk then
    ([Event.runCmd cmdStartHostapd, Event.runCmd cmdStartDnsmasq,
      Event.apMarkerWrite], false)
  else
    ([Event.runCmd cmdStartHostapd, Event.runCmd cmdStartDnsmasq], true)

/-- The `for i in range(max_retries)` loop of `is_connected_to_wifi`,
started at attempt index `i` with `n` iterations remaining.  Each
iteration probes (truthiness of the `run` result and `"inet "` occurring
in its stdout is abstracted into the oracle `probe`), returns `True`
immediately on a positive probe, and otherwise executes `time.sleep(1)` —
including after the final failed probe — before the next iteration or the
final `return False`. -/
def wifiLoop (probe : Nat → Bool) (i : Nat) : Nat → Bool × List Event
  | 0 => (false, [])
  | n + 1 =>
    if probe i then (true, [Event.probe i])
    else
      let r := wifiLoop probe (i + 1) n
      (r.1, Event.probe i :: Event.sleep 1 :: r.2)

/-- `is_connected_to_wifi(max_retries)` from provision_server.py. -/
def is_connected_to_wifi (probe : Nat → Bool) (max_retries : Nat) :
    Bool × List Event :=
  wifiLoop probe 0 max_retries

/-- The JSON body of a provisioning request after `request.get_json`:
each of the three credential fields is either absent (`none`) or a string;
`device_name` defaults to `'EVVOS_0001'` when absent. -/
structure ProvisionRequest where
  token : Option String
  ssid : Option String
  password : Option String
  device_name : Option String
deriving Repr, DecidableEq

/-- Python truthiness of an optional string, as used by the
`if not (token and ssid and password)` validation: absent or empty is
falsy. -/
def truthy : Option String → Bool
  | none => false
  | some s => !s.isEmpty

/-- Outcome of the single `requests.post` registration call: either a
`requests.RequestException` (connection failure or timeout) carrying its
`str(e)` detail, or an HTTP response with a status code and a body text. -/
inductive RegResult
  | transportError (detail : String)
  | response (status : Nat) (body : String)
deriving Repr, DecidableEq

/-- Environment of one provisioning attempt: the outcomes of every
external interaction the handler performs.  `parseOk` is whether
`request.get_json(force=True)` succeeds; `tmpWriteOk`,
`apMarkerWriteOk` and `provisionedWriteOk` are whether the three bare
file writes succeed (a failed write raises); `probe` is the connectivity
oracle by attempt index; `reg` is the registration call's outcome;
`exnMsg` stands for the `str(e)` of whichever injected exception is
raised. -/
structure Env where
  parseOk : Bool
  req : ProvisionRequest
  tmpWriteOk : Bool
  hostapdStart : CmdBehavior
  dnsmasqStart : CmdBehavior
  probe : Nat → Bool
  reg : RegResult
  apMarkerWriteOk : Bool
  provisionedWriteOk : Bool
  exnMsg : String

/-- A JSON response body as built by the handler's `jsonify` calls; absent
keys are `none`. -/
structure Body where
  ok : Bool
  error : Option String
  detail : Option String
  message : Option String
  provisioned : Option Bool
deriving Repr, DecidableEq

def msgMissing : String := "Missing fields (token, ssid, password)"

def msgInvalid : String := "Invalid request"

def msgConnectFail : String := "Failed to connect to hotspot. Please check SSID/password and try again."

def msgRegRejected : String := "Device connection registered but edge function failed"

def msgRegUnreachable : String := "Failed to call edge function"

def msgProvFailed : String := "Provisioning failed"

def msgSuccess : String := "Device provisioned successfully"

def missingFieldsBody : Body := ⟨false, some msgMissing, none, none, none⟩

def invalidRequestBody (d : String) : Body := ⟨false, some msgInvalid, some d, none, none⟩

def connectFailBody : Body := ⟨false, some msgConnectFail, none, none, none⟩

def regRejectedBody (d : String) : Body := ⟨false, some msgRegRejected, some d, none, none⟩

def regUnreachableBody (d : String) : Body := ⟨false, some msgRegUnreachable, some d, none, none⟩

def provisioningFailedBody (d : String) : Body := ⟨false, some msgProvFailed, some d, none, none⟩

def successBody : Body := ⟨true, none, none, some msgSuccess, none⟩

/-- Events of the validated prefix of an attempt: writing the temporary
wpa_supplicant config, stopping the AP services, `time.sleep(1)`, copying
the config into place (`run` with `check=True`, whose `CalledProcessError`
is swallowed inside `run`), triggering `wpa_cli` reconfigure and
`time.sleep(2)`. -/
def preTrace : List Event :=
  [Event.tmpWrite, Event.runCmd cmdStopHostapd, Event.runCmd cmdStopDnsmasq,
   Event.sleep 1, Event.runCmd cmdCpConfig, Event.runCmd cmdWpaReconfigure,
   Event.sleep 2]

/-- The `POST /provision` handler of provision_server.py.  Faithful control
flow: an outer `try` whose `except` answers `400 Invalid request`, an inner
`try` whose `except` calls `restore_ap_mode()` and answers
`500 Provisioning failed`, a nested `try` around `requests.post` catching
only `RequestException`.  A `restore_ap_mode` that raises inside the inner
region is re-raised from the inner `except` handler (which calls
`restore_ap_mode` again, raising again) and lands in the outer handler,
which answers `400 Invalid request`; the events of both partial restore
calls remain performed. -/
def provision (env : Env) : (Nat × Body) × List Event :=
  if !env.parseOk then
    ((400, invalidRequestBody env.exnMsg), [])
  else if !(truthy env.req.token && truthy env.req.ssid && truthy env.req.password) then
    ((400, missingFieldsBody), [])
  else if !env.tmpWriteOk then
    ((400, invalidRequestBody env.exnMsg), [])
  else
    let conn := is_connected_to_wifi env.probe 20
    let rest := restore_ap_mode env.hostapdStart env.dnsmasqStart env.apMarkerWriteOk
    if !conn.1 then
      if rest.2 then
        ((400, invalidRequestBody env.exnMsg), preTrace ++ conn.2 ++ rest.1 ++ rest.1)
      else
        ((400, connectFailBody), preTrace ++ conn.2 ++ rest.1)
    else
      match env.reg with
      | RegResult.transportError d =>
        if rest.2 then
          ((400, invalidRequestBody env.exnMsg), preTrace ++ conn.2 ++ rest.1 ++ rest.1)
        else
          ((500, regUnreachableBody d), preTrace ++ conn.2 ++ rest.1)
      | RegResult.response s b =>
        if s != 200 then
          if rest.2 then
            ((400, invalidRequestBody env.exnMsg), preTrace ++ conn.2 ++ rest.1 ++ rest.1)
          else
            ((500, regRejectedBody b), preTrace ++ conn.2 ++ rest.1)
        else if !env.provisionedWriteOk then
          if rest.2 then
            ((400, invalidRequestBody env.exnMsg), preTrace ++ conn.2 ++ rest.1 ++ rest.1)
          else
            ((500, provisioningFailedBody env.exnMsg), preTrace ++ conn.2 ++ rest.1)
        else
          ((200, successBody), preTrace ++ conn.2 ++
            [Event.provisionedWrite, Event.runCmd cmdStopHostapd,
             Event.runCmd cmdStopDnsmasq, Event.runCmd cmdStopProvisionServer])

/-- The `GET /provision-status` handler: answers 200 with
`provisioned` reflecting the existence of `PROVISIONED_FILE`. -/
def provision_status (provisionedFileExists : Bool) : Nat × Body :=
  if provisionedFileExists then (200, ⟨true, none, none, none, some true⟩)
  else (200, ⟨true, none, none, none, some false⟩)

/-- Registration success as the code decides it: `resp.status_code` equal
to 200 (the code's test is `resp.status_code != 200`). -/
def regSuccess : RegResult → Bool
  | .response s _ => s == 200
  | .transportError _ => false

/-- Presence of the durable provisioned marker after an attempt whose
events are `t`, starting from prior presence `init`: the subsystem only
ever creates the marker, never deletes it, so presence is the disjunction. -/
def markerAfter (init : Bool) (t : List Event) : Bool :=
  init || decide (Event.provisionedWrite ∈ t)

def probeEv : Event → Bool
  | .probe _ => true
  | _ => false

def sleepEv : Event → Bool
  | .sleep _ => true
  | _ => false

/-- Number of connectivity probes recorded in a trace. -/
def probeCount (t : List Event) : Nat := t.countP probeEv

/-- Number of `time.sleep` calls recorded in a trace. -/
def sleepCount (t : List Event) : Nat := t.countP sleepEv

/-! Join-configuration serialization (`create_wpa_config`) and the join
mechanism's value format.  Strings are embedded as `List Char`. -/

def cfgLine1 : List Char := "ctrl_interface=DIR=/var/run/wpa_supplicant GROUP=netdev".toList

def cfgLine2 : List Char := "update_config=1".toList

def cfgLine3 : List Char := "country=PH".toList

def cfgNetOpen : List Char := "network=\x7b".toList

def cfgClose : List Char := "\x7d".toList

def ssidKey : List Char := ['s', 's', 'i', 'd', '=']

def pskKey : List Char := ['p', 's', 'k', '=']

def cfgScan : List Char := "scan_ssid=1".toList

/-- `create_wpa_config(ssid, password)` from provision_server.py: the
f-string interpolates ssid and password verbatim — no escaping of any
character — between literal double quotes, on tab-indented lines inside
the `network=` block. -/
def create_wpa_config (ssid password : List Char) : List Char :=
  cfgLine1 ++ ('\n' ::
  (cfgLine2 ++ ('\n' ::
  (cfgLine3 ++ ('\n' :: '\n' ::
  (cfgNetOpen ++ ('\n' ::
  ('\t' :: (ssidKey ++ ('"' :: (ssid ++ ('"' :: '\n' ::
  ('\t' :: (pskKey ++ ('"' :: (password ++ ('"' :: '\n' ::
  ('\t' :: (cfgScan ++ ('\n' ::
  (cfgClose ++ ['\n'])))))))))))))))))))))

/-- Splits a character list into its newline-separated lines (the empty
text has one empty line, and a trailing newline yields a final empty
line). -/
def splitLines : List Char → List (List Char)
  | [] => [[]]
  | c :: cs =>
    if c = '\n' then [] :: splitLines cs
    else
      match splitLines cs with
      | [] => [[c]]
      | l :: ls => (c :: l) :: ls

/-- Modelled from the spec: the join mechanism (wpa_supplicant) reads a
field value from the first line of the configuration consisting of a tab,
the key (including its `=`), and the value text. -/
def extractField (key : List Char) (config : List Char) : Option (List Char) :=
  (splitLines config).findSome? (fun l =>
    if ('\t' :: key).isPrefixOf l then some (l.drop (key.length + 1)) else none)

/-- Modelled from the spec: the join mechanism's expected quoted-string
value format (wpa_supplicant's `wpa_config_parse_string`): the value must
begin with a double quote, its *last* double quote must be its final
character, and the content is taken verbatim — with no unescaping —
between the opening quote and that final quote. -/
def parseWpaString : List Char → Option (List Char)
  | '"' :: rest =>
    if rest.getLast? = some '"' then some rest.dropLast else none
  | _ => none

/-- Reading one field of a generated configuration back through the join
mechanism's format: extract the line's value, then parse it as a quoted
string. -/
def readField (key config : List Char) : Option (List Char) :=
  (extractField key config).bind parseWpaString

/-! Concrete requests and environments used to instantiate the theorems. -/

def req0 : ProvisionRequest := ⟨some "t", some "s", some "p", none⟩

/-- Fully successful attempt: parse ok, fields present, probe positive at
once, registration answers 200. -/
def envSuccess : Env :=
  ⟨true, req0, true, CmdBehavior.timesOut, CmdBehavior.timesOut,
   fun _ => true, RegResult.response 200 "ok", true, true, "boom"⟩

/-- Attempt whose connectivity poll never sees an address. -/
def envConnFail : Env :=
  ⟨true, req0, true, CmdBehavior.timesOut, CmdBehavior.timesOut,
   fun _ => false, RegResult.response 200 "ok", true, true, "boom"⟩

/-- Attempt whose registration call returns 503 with body
`service unavailable`. -/
def envReg503 : Env :=
  ⟨true, req0, true, CmdBehavior.timesOut, CmdBehavior.timesOut,
   fun _ => true, RegResult.response 503 "service unavailable", true, true, "boom"⟩

/-- Attempt whose registration call fails at the transport layer. -/
def envRegDown : Env :=
  ⟨true, req0, true, CmdBehavior.timesOut, CmdBehavior.timesOut,
   fun _ => true, RegResult.transportError "conn refused", true, true, "boom"⟩

/-- Attempt whose registration call returns the 2xx status 201. -/
def envReg201 : Env :=
  ⟨true, req0, true, CmdBehavior.timesOut, CmdBehavior.timesOut,
   fun _ => true, RegResult.response 201 "created", true, true, "boom"⟩

/-- Attempt in which the write of the temporary wpa_supplicant config
raises. -/
def envTmpFail : Env :=
  ⟨true, req0, false, CmdBehavior.timesOut, CmdBehavior.timesOut,
   fun _ => true, RegResult.response 200 "ok", true, true, "boom"⟩

/-- Attempt in which the write of the provisioned marker raises. -/
def envProvFail : Env :=
  ⟨true, req0, true, CmdBehavior.timesOut, CmdBehavior.timesOut,
   fun _ => true, RegResult.response 200 "ok", true, false, "boom"⟩

/-- Attempt whose connectivity poll never sees an address and whose
AP-restored marker write raises. -/
def envConnFailMarkerFail : Env :=
  ⟨true, req0, true, CmdBehavior.timesOut, CmdBehavior.timesOut,
   fun _ => false, RegResult.response 200 "ok", false, true, "boom"⟩

/-- Attempt in which both the provisioned-marker write and the
AP-restored marker write raise. -/
def envProvFailMarkerFail : Env :=
  ⟨true, req0, true, CmdBehavior.timesOut, CmdBehavior.timesOut,
   fun _ => true, RegResult.response 200 "ok", false, false, "boom"⟩

/-- Attempt with an empty ssid field. -/
def envMissingSsid : Env :=
  ⟨true, ⟨some "t", some "", some "p", none⟩, true, CmdBehavior.timesOut,
   CmdBehavior.timesOut, fun _ => true, RegResult.response 200 "ok", true, true, "boom"⟩

/-! Helper lemmas about the connectivity loop. -/

theorem wifiLoop_mem (p : Nat → Bool) (n : Nat) : ∀ (i : Nat) (e : Event),
    e ∈ (wifiLoop p i n).2 → probeEv e = true ∨ e = Event.sleep 1 := by
  induction n with
  | zero => intro i e h; simp [wifiLoop] at h
  | succ n ih =>
    intro i e h
    by_cases hp : p i = true
    · simp [wifiLoop, hp] at h
      subst h; left; rfl
    · simp only [wifiLoop, hp, Bool.false_eq_true, if_false] at h
      rcases List.mem_cons.mp h with h1 | h1
      · subst h1; left; rfl
      · rcases List.mem_cons.mp h1 with h2 | h2
        · subst h2; right; rfl
        · exact ih (i + 1) e h2

theorem provisionedWrite_not_mem_wifi (p : Nat → Bool) (n : Nat) :
    Event.provisionedWrite ∉ (is_connected_to_wifi p n).2 := by
  intro h
  rcases wifiLoop_mem p n 0 _ h with h' | h' <;> simp [probeEv] at h'

theorem apMarkerWrite_not_mem_wifi (p : Nat → Bool) (n : Nat) :
    Event.apMarkerWrite ∉ (is_connected_to_wifi p n).2 := by
  intro h
  rcases wifiLoop_mem p n 0 _ h with h' | h' <;> simp [probeEv] at h'

theorem wifiLoop_false_iff (p : Nat → Bool) (n : Nat) : ∀ i : Nat,
    ((wifiLoop p i n).1 = false ↔ ∀ j, j < n → p (i + j) = false) := by
  induction n with
  | zero => intro i; simp [wifiLoop]
  | succ n ih =>
    intro i
    by_cases hp : p i = true
    · simp only [wifiLoop, hp, if_true]
      constructor
      · intro h; cases h
      · intro H
        have := H 0 (by omega)
        rw [Nat.add_zero] at this
        rw [hp] at this
        cases this
    · simp only [wifiLoop, hp, Bool.false_eq_true, if_false]
      rw [ih (i + 1)]
      constructor
      · intro H j hj
        cases j with
        | zero =>
          rw [Nat.add_zero]
          exact Bool.not_eq_true _ |>.mp hp
        | succ j' =>
          have := H j' (by omega)
          rw [show i + 1 + j' = i + (j' + 1) by omega] at this
          exact this
      · intro H j hj
        have := H (j + 1) (by omega)
        rw [show i + (j + 1) = i + 1 + j by omega] at this
        exact this

theorem wifiLoop_exhaust_counts (p : Nat → Bool) (n : Nat) : ∀ i : Nat,
    (wifiLoop p i n).1 = false →
    probeCount (wifiLoop p i n).2 = n ∧ sleepCount (wifiLoop p i n).2 = n := by
  induction n with
  | zero => intro i _; simp [wifiLoop, probeCount, sleepCount]
  | succ n ih =>
    intro i h
    by_cases hp : p i = true
    · simp [wifiLoop, hp] at h
    · simp only [wifiLoop, hp, Bool.false_eq_true, if_false] at h ⊢
      obtain ⟨h1, h2⟩ := ih (i + 1) h
      constructor
      · simp [probeCount, List.countP_cons, probeEv] at h1 ⊢
        omega
      · simp [sleepCount, List.countP_cons, sleepEv] at h2 ⊢
        omega

theorem wifiLoop_success (p : Nat → Bool) : ∀ (k n i : Nat), k < n →
    (∀ j, j < k → p (i + j) = false) → p (i + k) = true →
    (wifiLoop p i n).1 = true ∧ probeCount (wifiLoop p i n).2 = k + 1 ∧
      sleepCount (wifiLoop p i n).2 = k := by
  intro k
  induction k with
  | zero =>
    intro n i hn _ hk
    obtain ⟨m, rfl⟩ := Nat.exists_eq_succ_of_ne_zero (by omega : n ≠ 0)
    rw [Nat.add_zero] at hk
    simp [wifiLoop, hk, probeCount, sleepCount, List.countP_cons, probeEv, sleepEv]
  | succ k ih =>
    intro n i hn hbefore hk
    obtain ⟨m, rfl⟩ := Nat.exists_eq_succ_of_ne_zero (by omega : n ≠ 0)
    have hpi : ¬p i = true := by
      have := hbefore 0 (by omega)
      rw [Nat.add_zero] at this
      simp [this]
    simp only [wifiLoop, hpi, Bool.false_eq_true, if_false]
    have hb : ∀ j, j < k → p (i + 1 + j) = false := by
      intro j hj
      have := hbefore (j + 1) (by omega)
      rw [show i + (j + 1) = i + 1 + j by omega] at this
      exact this
    have hk' : p (i + 1 + k) = true := by
      rw [show i + 1 + k = i + (k + 1) by omega]
      exact hk
    obtain ⟨h1, h2, h3⟩ := ih m (i + 1) (by omega) hb hk'
    refine ⟨h1, ?_, ?_⟩
    · simp [probeCount, List.countP_cons, probeEv] at h2 ⊢
      omega
    · simp [sleepCount, List.countP_cons, sleepEv] at h3 ⊢
      omega

/-- C9 counterexample: with all twenty probes negative,
`is_connected_to_wifi` performs twenty probes and twenty sleeps — it
sleeps after the final failed probe as well, so the sleeps are not only
"between attempts" (which would give at most nineteen on the exhaustion
path), refuting the claim as stated. -/
theorem C9_counterexample :
    (is_connected_to_wifi (fun _ => false) 20).1 = false ∧
    probeCount (is_connected_to_wifi (fun _ => false) 20).2 = 20 ∧
    sleepCount (is_connected_to_wifi (fun _ => false) 20).2 = 20 ∧
    sleepCount (is_connected_to_wifi (fun _ => false) 20).2 ≠ 20 - 1 := by
  decide

/-- C9 (amended): the connectivity poller probes at most `maxAttempts`
times, returns success at the first positive probe — having then probed
`k + 1` times and slept `k` times, i.e. only between attempts — and
returns failure exactly when all `maxAttempts` probes are negative, in
which case it has probed `maxAttempts` times and also slept `maxAttempts`
times: one one-second sleep after every failed probe, including the last,
bounding the worst-case wait to about 20 seconds at the default 20
attempts. -/
theorem C9_poller_amended :
    (∀ (probe : Nat → Bool) (n : Nat),
      ((is_connected_to_wifi probe n).1 = false ↔ ∀ i, i < n → probe i = false)) ∧
    (∀ (probe : Nat → Bool) (n : Nat), (is_connected_to_wifi probe n).1 = false →
      probeCount (is_connected_to_wifi probe n).2 = n ∧
      sleepCount (is_connected_to_wifi probe n).2 = n) ∧
    (∀ (probe : Nat → Bool) (n k : Nat), k < n →
      (∀ j, j < k → probe j = false) → probe k = true →
      (is_connected_to_wifi probe n).1 = true ∧
      probeCount (is_connected_to_wifi probe n).2 = k + 1 ∧
      sleepCount (is_connected_to_wifi probe n).2 = k) := by
  refine ⟨fun probe n => ?_, fun probe n h => ?_, fun probe n k h1 h2 h3 => ?_⟩
  · have := wifiLoop_false_iff probe n 0
    simpa [is_connected_to_wifi] using this
  · exact wifiLoop_exhaust_counts probe n 0 h
  · refine wifiLoop_success probe k n 0 h1 ?_ ?_
    · intro j hj
      simpa using h2 j hj
    · simpa using h3

/-- C9 witness: the amended theorem applied at concrete probe oracles. -/
theorem C9_witness :
    probeCount (is_connected_to_wifi (fun _ => false) 3).2 = 3 ∧
    (is_connected_to_wifi (fun i => decide (i = 1)) 5).1 = true := by
  constructor
  · exact (C9_poller_amended.2.1 (fun _ => false) 3 (by decide)).1
  · exact (C9_poller_amended.2.2 (fun i => decide (i = 1)) 5 1 (by decide)
      (by decide) (by decide)).1

/-- C2: for every attempt in which the connectivity poll exhausts its
twenty attempts without observing an address (and the request was a valid
one that reached the poll), the handler restores AP mode — it starts
hostapd and dnsmasq and creates the AP-restored marker — and answers
exactly 400 with the `ConnectFailure` body, never a 500. -/
theorem C2_connect_exhaustion_rolls_back (env : Env)
    (hp : env.parseOk = true)
    (hf : (truthy env.req.token && truthy env.req.ssid && truthy env.req.password) = true)
    (ht : env.tmpWriteOk = true)
    (hm : env.apMarkerWriteOk = true)
    (hc : (is_connected_to_wifi env.probe 20).1 = false) :
    (provision env).1 = (400, connectFailBody) ∧
    Event.apMarkerWrite ∈ (provision env).2 ∧
    Event.runCmd cmdStartHostapd ∈ (provision env).2 ∧
    Event.runCmd cmdStartDnsmasq ∈ (provision env).2 := by
  simp [provision, hp, hf, ht, hm, hc, restore_ap_mode]

/-- C2 witness: the theorem at a concrete environment whose probe oracle
is constantly negative. -/
theorem C2_witness :
    (provision envConnFail).1 = (400, connectFailBody) ∧
    Event.apMarkerWrite ∈ (provision envConnFail).2 ∧
    Event.runCmd cmdStartHostapd ∈ (provision envConnFail).2 ∧
    Event.runCmd cmdStartDnsmasq ∈ (provision envConnFail).2 :=
  C2_connect_exhaustion_rolls_back envConnFail rfl (by decide) rfl rfl (by decide)

/-- C3: for every attempt that reaches the registration call and whose
call fails — either by transport error or by a non-2xx response — the
handler restores AP mode (AP-restored marker created, no provisioned
marker) and answers exactly 500 with the distinguishing reason: the
exception detail in the unreachable case and the remote response body as
detail in the rejected case. -/
theorem C3_registration_failure_rolls_back (env : Env)
    (hp : env.parseOk = true)
    (hf : (truthy env.req.token && truthy env.req.ssid && truthy env.req.password) = true)
    (ht : env.tmpWriteOk = true)
    (hm : env.apMarkerWriteOk = true)
    (hc : (is_connected_to_wifi env.probe 20).1 = true) :
    (∀ d : String, env.reg = RegResult.transportError d →
      (provision env).1 = (500, regUnreachableBody d) ∧
      Event.apMarkerWrite ∈ (provision env).2 ∧
      Event.provisionedWrite ∉ (provision env).2) ∧
    (∀ (s : Nat) (b : String), env.reg = RegResult.response s b →
      s < 200 ∨ 300 ≤ s →
      (provision env).1 = (500, regRejectedBody b) ∧
      Event.apMarkerWrite ∈ (provision env).2 ∧
      Event.provisionedWrite ∉ (provision env).2) := by
  constructor
  · intro d hreg
    simp [provision, hp, hf, ht, hm, hc, hreg, restore_ap_mode, preTrace,
      provisionedWrite_not_mem_wifi env.probe 20]
  · intro s b hreg hs
    have hs' : (s != 200) = true := by
      simp only [bne_iff_ne, ne_eq]
      omega
    simp [provision, hp, hf, ht, hm, hc, hreg, hs', restore_ap_mode, preTrace,
      provisionedWrite_not_mem_wifi env.probe 20]

/-- C3 witness: the theorem at two concrete environments — registration
answering 503 `service unavailable`, and registration unreachable. -/
theorem C3_witness :
    ((provision envRegDown).1 = (500, regUnreachableBody "conn refused") ∧
      Event.apMarkerWrite ∈ (provision envRegDown).2 ∧
      Event.provisionedWrite ∉ (provision envRegDown).2) ∧
    ((provision envReg503).1 = (500, regRejectedBody "service unavailable") ∧
      Event.apMarkerWrite ∈ (provision envReg503).2 ∧
      Event.provisionedWrite ∉ (provision envReg503).2) :=
  ⟨(C3_registration_failure_rolls_back envRegDown rfl (by decide) rfl rfl
      (by decide)).1 "conn refused" rfl,
   (C3_registration_failure_rolls_back envReg503 rfl (by decide) rfl rfl
      (by decide)).2 503 "service unavailable" rfl (by omega)⟩

/-- C5: for every POST /provision request whose token, ssid or password is
absent or empty, the handler answers 400 with the missing-fields body and
performs no side effect at all: the event trace is empty — no join
configuration written, no service stopped or started, no marker created. -/
theorem C5_missing_fields_no_side_effects (env : Env)
    (hp : env.parseOk = true)
    (hf : (truthy env.req.token && truthy env.req.ssid && truthy env.req.password) = false) :
    provision env = ((400, missingFieldsBody), []) := by
  simp [provision, hp, hf]

/-- C5 witness: the theorem at a concrete request with an empty ssid. -/
theorem C5_witness : provision envMissingSsid = ((400, missingFieldsBody), []) :=
  C5_missing_fields_no_side_effects envMissingSsid rfl (by decide)

/-- C10: on the successful provisioning path the handler, after creating
the provisioned marker and before returning the 200 response (every trace
event precedes the response), stops hostapd, dnsmasq — and additionally
the provision-server service itself. -/
theorem C10_success_stops_provision_server (env : Env)
    (hp : env.parseOk = true)
    (hf : (truthy env.req.token && truthy env.req.ssid && truthy env.req.password) = true)
    (ht : env.tmpWriteOk = true)
    (hw : env.provisionedWriteOk = true)
    (hc : (is_connected_to_wifi env.probe 20).1 = true)
    (hs : regSuccess env.reg = true) :
    (provision env).1 = (200, successBody) ∧
    ∃ l1, (provision env).2 =
      l1 ++ [Event.provisionedWrite, Event.runCmd cmdStopHostapd,
             Event.runCmd cmdStopDnsmasq, Event.runCmd cmdStopProvisionServer] := by
  rcases hreg : env.reg with ⟨d⟩ | ⟨s, b⟩
  · rw [hreg] at hs
    simp [regSuccess] at hs
  · rw [hreg] at hs
    simp only [regSuccess, beq_iff_eq] at hs
    subst hs
    refine ⟨?_, preTrace ++ (is_connected_to_wifi env.probe 20).2, ?_⟩ <;>
      simp [provision, hp, hf, ht, hw, hc, hreg, List.append_assoc]

/-- C10 witness: the theorem at a concrete fully successful environment. -/
theorem C10_witness :
    (provision envSuccess).1 = (200, successBody) ∧
    ∃ l1, (provision envSuccess).2 =
      l1 ++ [Event.provisionedWrite, Event.runCmd cmdStopHostapd,
             Event.runCmd cmdStopDnsmasq, Event.runCmd cmdStopProvisionServer] :=
  C10_success_stops_provision_server envSuccess rfl (by decide) rfl rfl
    (by decide) (by decide)

/-- C1: with no injected file-write fault, the provisioned marker is
created by an attempt exactly when the attempt reaches full success —
valid fields, the connectivity poll confirms an address, and the
registration call returns the success status; the status endpoint answers
200 with `provisioned` exactly mirroring marker existence; and marker
presence is monotone: the subsystem never deletes it. -/
theorem C1_provisioned_flag_iff :
    (∀ env : Env, env.parseOk = true → env.tmpWriteOk = true →
      env.apMarkerWriteOk = true → env.provisionedWriteOk = true →
      (Event.provisionedWrite ∈ (provision env).2 ↔
        ((truthy env.req.token && truthy env.req.ssid && truthy env.req.password) = true ∧
         (is_connected_to_wifi env.probe 20).1 = true ∧
         regSuccess env.reg = true))) ∧
    (∀ b : Bool, provision_status b = (200, ⟨true, none, none, none, some b⟩)) ∧
    (∀ (init : Bool) (t : List Event), init = true → markerAfter init t = true) := by
  refine ⟨?_, ?_, ?_⟩
  · intro env hp ht hm hw
    by_cases hf : (truthy env.req.token && truthy env.req.ssid && truthy env.req.password) = true
    · by_cases hc : (is_connected_to_wifi env.probe 20).1 = true
      · rcases hreg : env.reg with ⟨d⟩ | ⟨s, b⟩
        · simp [provision, hp, ht, hm, hw, hf, hc, hreg, restore_ap_mode, preTrace,
            provisionedWrite_not_mem_wifi env.probe 20, regSuccess]
        · by_cases hs : s = 200
          · subst hs
            simp [provision, hp, ht, hm, hw, hf, hc, hreg, preTrace, regSuccess]
          · have hs' : (s != 200) = true := by
              simp [bne_iff_ne, hs]
            simp [provision, hp, ht, hm, hw, hf, hc, hreg, hs', restore_ap_mode,
              preTrace, provisionedWrite_not_mem_wifi env.probe 20, regSuccess, hs]
      · have hc' : (is_connected_to_wifi env.probe 20).1 = false := by
          simpa using hc
        simp [provision, hp, ht, hm, hw, hf, hc', restore_ap_mode, preTrace,
          provisionedWrite_not_mem_wifi env.probe 20]
    · have hf' : (truthy env.req.token && truthy env.req.ssid && truthy env.req.password) = false := by
        simpa using hf
      simp [provision, hp, ht, hf', hf]
  · intro b
    cases b <;> rfl
  · intro init t h
    simp [markerAfter, h]

/-- C1 witness: the iff applied at a concrete fully successful
environment, and in the reverse direction at a concrete failing one. -/
theorem C1_witness :
    Event.provisionedWrite ∈ (provision envSuccess).2 ∧
    Event.provisionedWrite ∉ (provision envConnFail).2 :=
  ⟨(C1_provisioned_flag_iff.1 envSuccess rfl rfl rfl rfl).mpr
      ⟨by decide, by decide, by decide⟩,
   fun h => by
    have := (C1_provisioned_flag_iff.1 envConnFail rfl rfl rfl rfl).mp h
    exact absurd this.2.1 (by decide)⟩

/-- C4 counterexample: the registration response status 201 is a 2xx
status, yet the handler answers 500 with the rejected body and the
provisioned marker is not created — only the exact status 200 counts as
success (`resp.status_code != 200`), refuting the claim as stated. -/
theorem C4_counterexample :
    (200 ≤ 201 ∧ 201 < 300) ∧
    (provision envReg201).1 = (500, regRejectedBody "created") ∧
    Event.provisionedWrite ∉ (provision envReg201).2 := by
  decide

/-- C4 (amended): a registration response with exactly status 200 yields
success and the provisioned marker; any other status — including the
other 2xx codes — maps to the registration-rejected 500 failure, and a
transport failure maps to the registration-unreachable 500 failure. -/
theorem C4_only_200_succeeds (env : Env)
    (hp : env.parseOk = true)
    (hf : (truthy env.req.token && truthy env.req.ssid && truthy env.req.password) = true)
    (ht : env.tmpWriteOk = true)
    (hm : env.apMarkerWriteOk = true)
    (hw : env.provisionedWriteOk = true)
    (hc : (is_connected_to_wifi env.probe 20).1 = true) :
    (∀ b : String, env.reg = RegResult.response 200 b →
      (provision env).1 = (200, successBody) ∧
      Event.provisionedWrite ∈ (provision env).2) ∧
    (∀ (s : Nat) (b : String), env.reg = RegResult.response s b → s ≠ 200 →
      (provision env).1 = (500, regRejectedBody b) ∧
      Event.provisionedWrite ∉ (provision env).2) ∧
    (∀ d : String, env.reg = RegResult.transportError d →
      (provision env).1 = (500, regUnreachableBody d) ∧
      Event.provisionedWrite ∉ (provision env).2) := by
  refine ⟨fun b hreg => ?_, fun s b hreg hs => ?_, fun d hreg => ?_⟩
  · simp [provision, hp, hf, ht, hw, hc, hreg, preTrace]
  · have hs' : (s != 200) = true := by
      simp [bne_iff_ne, hs]
    simp [provision, hp, hf, ht, hm, hw, hc, hreg, hs', restore_ap_mode, preTrace,
      provisionedWrite_not_mem_wifi env.probe 20]
  · simp [provision, hp, hf, ht, hm, hw, hc, hreg, restore_ap_mode, preTrace,
      provisionedWrite_not_mem_wifi env.probe 20]

/-- C4 witness: the amended theorem at concrete environments for each of
the three registration outcomes. -/
theorem C4_witness :
    ((provision envSuccess).1 = (200, successBody) ∧
      Event.provisionedWrite ∈ (provision envSuccess).2) ∧
    ((provision envReg201).1 = (500, regRejectedBody "created") ∧
      Event.provisionedWrite ∉ (provision envReg201).2) ∧
    ((provision envRegDown).1 = (500, regUnreachableBody "conn refused") ∧
      Event.provisionedWrite ∉ (provision envRegDown).2) :=
  ⟨(C4_only_200_succeeds envSuccess rfl (by decide) rfl rfl rfl
      (by decide)).1 "ok" rfl,
   (C4_only_200_succeeds envReg201 rfl (by decide) rfl rfl rfl
      (by decide)).2.1 201 "created" rfl (by omega),
   (C4_only_200_succeeds envRegDown rfl (by decide) rfl rfl rfl
      (by decide)).2.2 "conn refused" rfl⟩

/-- C6 counterexample: when the write of the temporary join configuration
raises — an unexpected exception at a step of the provisioning attempt —
the handler answers 400 Invalid request with an empty event trace: no
rollback is attempted before replying, refuting the claim as stated. -/
theorem C6_counterexample :
    (provision envTmpFail).1 = (400, invalidRequestBody "boom") ∧
    (provision envTmpFail).2 = [] ∧
    Event.runCmd cmdStartHostapd ∉ (provision envTmpFail).2 := by
  decide

/-- C6 (amended): no exception ever reaches the HTTP caller raw — the
handler always answers a structured JSON failure.  An unexpected exception
inside the inner orchestration (here: the provisioned-marker write
raising) is caught and AP restoration is attempted before replying: when
the restoration completes, hostapd and dnsmasq are started, the
AP-restored marker is created, and the reply is the structured
500 Failure with reason and detail; when the restoration itself raises
(its marker write failing), the service starts are still attempted but the
reply degrades to 400 Invalid request with the exception detail.  But an
exception during request parsing or during the initial join-configuration
write is answered 400 Invalid request with *no* rollback attempt (none is
needed there, as the AP services have not yet been touched). -/
theorem C6_exception_handling_amended :
    (∀ env : Env, env.parseOk = true →
      (truthy env.req.token && truthy env.req.ssid && truthy env.req.password) = true →
      env.tmpWriteOk = true → env.apMarkerWriteOk = true →
      (is_connected_to_wifi env.probe 20).1 = true → regSuccess env.reg = true →
      env.provisionedWriteOk = false →
      (provision env).1 = (500, provisioningFailedBody env.exnMsg) ∧
      Event.runCmd cmdStartHostapd ∈ (provision env).2 ∧
      Event.runCmd cmdStartDnsmasq ∈ (provision env).2 ∧
      Event.apMarkerWrite ∈ (provision env).2 ∧
      Event.provisionedWrite ∉ (provision env).2) ∧
    (∀ env : Env, env.parseOk = true →
      (truthy env.req.token && truthy env.req.ssid && truthy env.req.password) = true →
      env.tmpWriteOk = true → env.apMarkerWriteOk = false →
      (is_connected_to_wifi env.probe 20).1 = true → regSuccess env.reg = true →
      env.provisionedWriteOk = false →
      (provision env).1 = (400, invalidRequestBody env.exnMsg) ∧
      Event.runCmd cmdStartHostapd ∈ (provision env).2 ∧
      Event.runCmd cmdStartDnsmasq ∈ (provision env).2 ∧
      Event.apMarkerWrite ∉ (provision env).2 ∧
      Event.provisionedWrite ∉ (provision env).2) ∧
    (∀ env : Env, env.parseOk = true →
      (truthy env.req.token && truthy env.req.ssid && truthy env.req.password) = true →
      env.tmpWriteOk = false →
      (provision env).1 = (400, invalidRequestBody env.exnMsg) ∧
      (provision env).2 = []) ∧
    (∀ env : Env, env.parseOk = false →
      (provision env).1 = (400, invalidRequestBody env.exnMsg) ∧
      (provision env).2 = []) := by
  refine ⟨fun env hp hf ht hm hc hs hw => ?_, fun env hp hf ht hm hc hs hw => ?_,
    fun env hp hf ht => ?_, fun env hp => ?_⟩
  · rcases hreg : env.reg with ⟨d⟩ | ⟨s, b⟩
    · rw [hreg] at hs
      simp [regSuccess] at hs
    · rw [hreg] at hs
      simp only [regSuccess, beq_iff_eq] at hs
      subst hs
      simp [provision, hp, hf, ht, hm, hw, hc, hreg, restore_ap_mode, preTrace,
        provisionedWrite_not_mem_wifi env.probe 20]
  · rcases hreg : env.reg with ⟨d⟩ | ⟨s, b⟩
    · rw [hreg] at hs
      simp [regSuccess] at hs
    · rw [hreg] at hs
      simp only [regSuccess, beq_iff_eq] at hs
      subst hs
      simp [provision, hp, hf, ht, hm, hw, hc, hreg, restore_ap_mode, preTrace,
        provisionedWrite_not_mem_wifi env.probe 20,
        apMarkerWrite_not_mem_wifi env.probe 20]
  · simp [provision, hp, hf, ht]
  · simp [provision, hp]

/-- C6 witness: the amended theorem applied at concrete environments for
an inner exception with completing rollback, an inner exception with
raising rollback, and an outer exception (join-configuration write
raising). -/
theorem C6_witness :
    ((provision envProvFail).1 = (500, provisioningFailedBody "boom") ∧
      Event.runCmd cmdStartHostapd ∈ (provision envProvFail).2) ∧
    ((provision envProvFailMarkerFail).1 = (400, invalidRequestBody "boom") ∧
      Event.runCmd cmdStartHostapd ∈ (provision envProvFailMarkerFail).2) ∧
    ((provision envTmpFail).1 = (400, invalidRequestBody "boom") ∧
      (provision envTmpFail).2 = []) :=
  ⟨⟨(C6_exception_handling_amended.1 envProvFail rfl (by decide) rfl rfl
      (by decide) (by decide) rfl).1,
    (C6_exception_handling_amended.1 envProvFail rfl (by decide) rfl rfl
      (by decide) (by decide) rfl).2.1⟩,
   ⟨(C6_exception_handling_amended.2.1 envProvFailMarkerFail rfl (by decide) rfl
      rfl (by decide) (by decide) rfl).1,
    (C6_exception_handling_amended.2.1 envProvFailMarkerFail rfl (by decide) rfl
      rfl (by decide) (by decide) rfl).2.1⟩,
   C6_exception_handling_amended.2.2.1 envTmpFail rfl (by decide) rfl⟩

/-- C7 counterexample: when the `AP_RESTORED_FILE` marker write fails,
`restore_ap_mode` raises to its caller (and the marker is absent) —
the marker-write failure is not swallowed, refuting the claim as
stated. -/
theorem C7_counterexample :
    (restore_ap_mode CmdBehavior.timesOut CmdBehavior.timesOut false).2 = true ∧
    Event.apMarkerWrite ∉
      (restore_ap_mode CmdBehavior.timesOut CmdBehavior.timesOut false).1 := by
  decide

/-- C7 (amended): failures of the two service-start commands are swallowed
by `run` and can never make `restore_ap_mode` raise — both start commands
are always issued regardless of their outcomes — but a failure of the
marker-file write propagates as an exception to the caller: the function
raises exactly when the marker write fails, and the marker exists in its
trace exactly when that write succeeded.  Consequently a rollback failure
does surface through the HTTP response: on a rollback-triggering attempt
(here: connectivity exhaustion) whose marker write fails, the provision
handler answers 400 Invalid request instead of the ConnectFailure body,
with the AP-restored marker absent and the service starts still
attempted. -/
theorem C7_restore_behavior_amended :
    (∀ (b1 b2 : CmdBehavior) (mok : Bool),
      (restore_ap_mode b1 b2 mok).2 = !mok ∧
      Event.runCmd cmdStartHostapd ∈ (restore_ap_mode b1 b2 mok).1 ∧
      Event.runCmd cmdStartDnsmasq ∈ (restore_ap_mode b1 b2 mok).1 ∧
      (Event.apMarkerWrite ∈ (restore_ap_mode b1 b2 mok).1 ↔ mok = true)) ∧
    (∀ env : Env, env.parseOk = true →
      (truthy env.req.token && truthy env.req.ssid && truthy env.req.password) = true →
      env.tmpWriteOk = true → env.apMarkerWriteOk = false →
      (is_connected_to_wifi env.probe 20).1 = false →
      (provision env).1 = (400, invalidRequestBody env.exnMsg) ∧
      (provision env).1 ≠ (400, connectFailBody) ∧
      Event.runCmd cmdStartHostapd ∈ (provision env).2 ∧
      Event.runCmd cmdStartDnsmasq ∈ (provision env).2 ∧
      Event.apMarkerWrite ∉ (provision env).2) := by
  constructor
  · intro b1 b2 mok
    cases mok <;> simp [restore_ap_mode]
  · intro env hp hf ht hm hc
    have hne : invalidRequestBody env.exnMsg ≠ connectFailBody := by
      intro h
      have := congrArg Body.error h
      simp [invalidRequestBody, connectFailBody, msgInvalid, msgConnectFail] at this
    simp [provision, hp, hf, ht, hm, hc, restore_ap_mode, preTrace,
      apMarkerWrite_not_mem_wifi env.probe 20, hne]

/-- C7 witness: the amended theorem's HTTP-surfacing part applied at a
concrete environment whose poll exhausts and whose marker write fails. -/
theorem C7_witness :
    (provision envConnFailMarkerFail).1 = (400, invalidRequestBody "boom") ∧
    (provision envConnFailMarkerFail).1 ≠ (400, connectFailBody) ∧
    Event.apMarkerWrite ∉ (provision envConnFailMarkerFail).2 :=
  ⟨(C7_restore_behavior_amended.2 envConnFailMarkerFail rfl (by decide) rfl rfl
      (by decide)).1,
   (C7_restore_behavior_amended.2 envConnFailMarkerFail rfl (by decide) rfl rfl
      (by decide)).2.1,
   (C7_restore_behavior_amended.2 envConnFailMarkerFail rfl (by decide) rfl rfl
      (by decide)).2.2.2.2⟩

/-! Round trip of the join configuration through the join mechanism's
value format. -/

theorem splitLines_cons_nl (ys : List Char) :
    splitLines ('\n' :: ys) = [] :: splitLines ys := by
  simp [splitLines]

theorem splitLines_ne_nil (xs : List Char) : splitLines xs ≠ [] := by
  cases xs with
  | nil => simp [splitLines]
  | cons c cs =>
    by_cases h : c = '\n'
    · simp [splitLines, h]
    · simp only [splitLines, h, if_false]
      cases hsp : splitLines cs with
      | nil => simp
      | cons l ls => simp

theorem splitLines_append (xs ys : List Char) (h : '\n' ∉ xs) :
    splitLines (xs ++ '\n' :: ys) = xs :: splitLines ys := by
  induction xs with
  | nil => simp [splitLines_cons_nl]
  | cons c cs ih =>
    have hc : ¬c = '\n' := fun hh => h (hh ▸ List.mem_cons_self c cs)
    have hcs : '\n' ∉ cs := fun hh => h (List.mem_cons_of_mem c hh)
    simp only [List.cons_append, splitLines, hc, if_false, List.append_eq]
    rw [ih hcs]

/-- The tab-indented `key="value"` line of the generated configuration. -/
def fieldLine (key v : List Char) : List Char := '\t' :: key ++ '"' :: v ++ ['"']

theorem fieldLine_eq (key v : List Char) :
    fieldLine key v = ('\t' :: key) ++ ('"' :: (v ++ ['"'])) := by
  simp [fieldLine]

theorem fieldLine_assoc (key v rest : List Char) :
    '\t' :: (key ++ ('"' :: (v ++ '"' :: rest))) = fieldLine key v ++ rest := by
  simp [fieldLine]

theorem nl_not_mem_fieldLine (key v : List Char) (hk : '\n' ∉ key)
    (hv : '\n' ∉ v) : '\n' ∉ fieldLine key v := by
  intro h
  rw [fieldLine_eq] at h
  rcases List.mem_append.mp h with h1 | h1
  · rcases List.mem_cons.mp h1 with h2 | h2
    · exact absurd h2 (by decide)
    · exact hk h2
  · rcases List.mem_cons.mp h1 with h2 | h2
    · exact absurd h2 (by decide)
    · rcases List.mem_append.mp h2 with h3 | h3
      · exact hv h3
      · exact absurd h3 (by decide)

theorem config_splitLines (s p : List Char) (hs : '\n' ∉ s) (hp : '\n' ∉ p) :
    splitLines (create_wpa_config s p) =
      [cfgLine1, cfgLine2, cfgLine3, [], cfgNetOpen,
       fieldLine ssidKey s, fieldLine pskKey p, '\t' :: cfgScan, cfgClose, []] := by
  rw [create_wpa_config]
  rw [splitLines_append cfgLine1 _ (by decide)]
  rw [splitLines_append cfgLine2 _ (by decide)]
  rw [splitLines_append cfgLine3 _ (by decide)]
  rw [splitLines_cons_nl]
  rw [splitLines_append cfgNetOpen _ (by decide)]
  rw [fieldLine_assoc ssidKey s _]
  rw [splitLines_append (fieldLine ssidKey s) _
    (nl_not_mem_fieldLine ssidKey s (by decide) hs)]
  rw [fieldLine_assoc pskKey p _]
  rw [splitLines_append (fieldLine pskKey p) _
    (nl_not_mem_fieldLine pskKey p (by decide) hp)]
  rw [← List.cons_append '\t' cfgScan _]
  rw [splitLines_append ('\t' :: cfgScan) _ (by decide)]
  rw [splitLines_append cfgClose [] (by decide)]
  rfl

theorem parseWpaString_quoted (v : List Char) :
    parseWpaString ('"' :: (v ++ ['"'])) = some v := by
  simp [parseWpaString, List.getLast?_concat, List.dropLast_concat]

theorem fieldLine_lookup_hit (key v : List Char) :
    (if ('\t' :: key).isPrefixOf (fieldLine key v) = true
      then some ((fieldLine key v).drop (key.length + 1)) else none) =
      some ('"' :: (v ++ ['"'])) := by
  have hpre : ('\t' :: key).isPrefixOf (fieldLine key v) = true := by
    rw [List.isPrefixOf_iff_prefix, fieldLine_eq]
    exact List.prefix_append _ _
  have hlen : key.length + 1 = ('\t' :: key).length := by simp
  rw [hpre, if_pos rfl, fieldLine_eq, hlen, List.drop_left]

theorem findSome?_cons_none {α β : Type} (f : α → Option β) (a : α) (l : List α)
    (h : f a = none) : (a :: l).findSome? f = l.findSome? f := by
  simp [List.findSome?, h]

theorem findSome?_cons_some {α β : Type} (f : α → Option β) (a : α) (l : List α)
    (b : β) (h : f a = some b) : (a :: l).findSome? f = some b := by
  simp [List.findSome?, h]

theorem fieldLine_lookup_miss_psk (s : List Char) :
    (if ('\t' :: pskKey).isPrefixOf (fieldLine ssidKey s) = true
      then some ((fieldLine ssidKey s).drop (pskKey.length + 1)) else none) = none := by
  have hm : ('\t' :: pskKey).isPrefixOf (fieldLine ssidKey s) = false := by
    simp [fieldLine, ssidKey, pskKey, List.isPrefixOf, List.cons_append]
  rw [hm]
  simp

theorem extractField_ssid (s p : List Char) (hs : '\n' ∉ s) (hp : '\n' ∉ p) :
    extractField ssidKey (create_wpa_config s p) = some ('"' :: (s ++ ['"'])) := by
  rw [extractField, config_splitLines s p hs hp]
  rw [findSome?_cons_none _ _ _ (by decide)]
  rw [findSome?_cons_none _ _ _ (by decide)]
  rw [findSome?_cons_none _ _ _ (by decide)]
  rw [findSome?_cons_none _ _ _ (by decide)]
  rw [findSome?_cons_none _ _ _ (by decide)]
  rw [findSome?_cons_some _ _ _ _ (by exact fieldLine_lookup_hit ssidKey s)]

theorem extractField_psk (s p : List Char) (hs : '\n' ∉ s) (hp : '\n' ∉ p) :
    extractField pskKey (create_wpa_config s p) = some ('"' :: (p ++ ['"'])) := by
  rw [extractField, config_splitLines s p hs hp]
  rw [findSome?_cons_none _ _ _ (by decide)]
  rw [findSome?_cons_none _ _ _ (by decide)]
  rw [findSome?_cons_none _ _ _ (by decide)]
  rw [findSome?_cons_none _ _ _ (by decide)]
  rw [findSome?_cons_none _ _ _ (by decide)]
  rw [findSome?_cons_none _ _ _ (by exact fieldLine_lookup_miss_psk s)]
  rw [findSome?_cons_some _ _ _ _ (by exact fieldLine_lookup_hit pskKey p)]

/-- C8 counterexample: an ssid containing an embedded double quote *and* a
newline does not round-trip: the serialization performs no escaping, the
newline splits the generated configuration line, and parsing yields back a
different string, refuting the claim as stated (which quantifies over all
ssid/password containing an embedded double quote). -/
theorem C8_counterexample :
    '"' ∈ (['a', '"', '\n', 'b'] : List Char) ∧
    readField ssidKey (create_wpa_config ['a', '"', '\n', 'b'] ['p', '"', 'q']) ≠
      some ['a', '"', '\n', 'b'] := by
  decide

/-- C8 (amended): for every ssid and password containing an embedded
double quote but no newline, the generated join configuration — which
leaves the quote in place unescaped — round-trips: parsing the
configuration in the join mechanism's last-quote-delimited quoted-string
format yields back exactly the original ssid and password. -/
theorem C8_roundtrip_amended (s p : List Char) (hs : '\n' ∉ s) (hp : '\n' ∉ p)
    (_hqs : '"' ∈ s) (_hqp : '"' ∈ p) :
    readField ssidKey (create_wpa_config s p) = some s ∧
    readField pskKey (create_wpa_config s p) = some p := by
  constructor
  · rw [readField, extractField_ssid s p hs hp, Option.some_bind]
    exact parseWpaString_quoted s
  · rw [readField, extractField_psk s p hs hp, Option.some_bind]
    exact parseWpaString_quoted p

/-- C8 witness: the amended round trip at a concrete ssid and password
each containing an embedded double quote. -/
theorem C8_witness :
    readField ssidKey (create_wpa_config ['a', '"', 'b'] ['p', '"', 'q']) =
      some ['a', '"', 'b'] ∧
    readField pskKey (create_wpa_config ['a', '"', 'b'] ['p', '"', 'q']) =
      some ['p', '"', 'q'] :=
  C8_roundtrip_amended _ _ (by decide) (by decide) (by decide) (by decide)

end EVVOS
